import Mathlib

/-!
Shallow embedding of the orchestration core of the shopee-livestream-bot
repository (Go). Pure control flow is translated directly; every driver
call (chromedp navigation, script evaluation, cookie I/O, file I/O) is
modelled as an oracle supplied through an environment structure, and
wall-clock time advances only at `time.Sleep` calls, two seconds per poll
tick of the manual-login loop.
-/

namespace Shopee

/-- A browser cookie as captured from the driver (the network.Cookie fields
that auth.go reads and writes). -/
structure Cookie where
  name : String
  value : String
  domain : String
  path : String
  httpOnly : Bool
  secure : Bool
  deriving DecidableEq, Repr

/-- The distinct non-nil Go error values produced by the modelled functions.
Wrapping with fmt.Errorf("...: %w", err) is modelled by the recursive
constructors. -/
inductive GoErr where
  | navErr : GoErr
  | locationErr : GoErr
  | formNotFoundErr : GoErr
  | typeErr : GoErr
  | clickErr : GoErr
  | stillOnLoginErr : GoErr
  | noCredsErr : GoErr
  | getCookiesErr : GoErr
  | writeFileErr : GoErr
  | timeoutErr : GoErr
  | clearCookiesErr : GoErr
  | ctxCanceled : GoErr
  | purchaseFailed (code : Nat) : GoErr
  | navWrapped (e : GoErr) : GoErr
  | monitoringError (e : GoErr) : GoErr
  | allAttemptsFailed (n : Nat) (last : GoErr) : GoErr
  | allAttemptsFailedNil (n : Nat) : GoErr
  deriving DecidableEq, Repr

/-- The mutable fields of auth.Manager that the claims talk about:
m.cookies and m.isLoggedIn. -/
structure ManagerState where
  cookies : List Cookie
  isLoggedIn : Bool
  deriving DecidableEq, Repr

/-- NewManager starts with no cookies and isLoggedIn = false. -/
def initialState : ManagerState := ⟨[], false⟩

namespace Auth

/-- findSubstring from auth.go: for i := 0; i <= len(s)-len(substr); i++
compare s[i:i+len(substr)] with substr.  Go int arithmetic makes the bound
negative when substr is longer than s, so the loop body never runs then. -/
def findSubstring (s substr : List Char) : Bool :=
  if substr.length ≤ s.length then
    (List.range (s.length - substr.length + 1)).any fun i =>
      decide ((s.drop i).take substr.length = substr)
  else false

/-- contains from auth.go: checks a leading slice, a trailing slice, and
finally a full scan, each guarded by a length comparison. -/
def contains (s substr : List Char) : Bool :=
  (decide (substr.length ≤ s.length) && decide (s.take substr.length = substr)) ||
  (decide (substr.length < s.length) && decide (s.drop (s.length - substr.length) = substr)) ||
  (decide (substr.length < s.length) && findSubstring s substr)

end Auth

namespace Purchase

/-- contains from executor.go: the plain scan over every start position,
with the same Go loop bound as Auth.findSubstring. -/
def contains (s substr : List Char) : Bool :=
  if substr.length ≤ s.length then
    (List.range (s.length - substr.length + 1)).any fun i =>
      decide ((s.drop i).take substr.length = substr)
  else false

end Purchase

/-- Substring test on Lean strings through the auth.go contains, used by the
URL checks in the session manager model. -/
def strContains (s substr : String) : Bool := Auth.contains s.data substr.data

/-- The login path auth.go matches URLs against. -/
def loginPath : String := "/buyer/login"

/-- Oracle for one SaveSession call: the outcome of network.GetCookies and of
os.WriteFile.  (json.MarshalIndent of a cookie list cannot fail and is not
modelled; os.MkdirAll has its error ignored by the source.) -/
structure SaveEnv where
  getCookies : Option (List Cookie)
  writeOK : Bool
  deriving DecidableEq, Repr

/-- SaveSession from auth.go: read all cookies from the driver (on failure
return without mutating), store them in m.cookies, write the session file
(on failure return the error, m.cookies already updated), then set
m.isLoggedIn = true. -/
def SaveSession (env : SaveEnv) (st : ManagerState) : Option GoErr × ManagerState :=
  match env.getCookies with
  | none => (some .getCookiesErr, st)
  | some cs =>
    if env.writeOK then (none, { cookies := cs, isLoggedIn := true })
    else (some .writeFileErr, { st with cookies := cs })

/-- Oracle for one LoadSession call: the session file content
(none = missing or unreadable, some none = malformed JSON,
some (some cs) = parsed cookie list) and the outcome of pushing the cookies
into the driver. -/
structure LoadEnv where
  fileContent : Option (Option (List Cookie))
  setCookiesOK : Bool
  deriving DecidableEq, Repr

/-- LoadSession from auth.go: false on missing file, unreadable file,
malformed content or driver failure, in each case without mutating;
on success set m.cookies to the loaded list and return true. -/
def LoadSession (env : LoadEnv) (st : ManagerState) : Bool × ManagerState :=
  match env.fileContent with
  | none => (false, st)
  | some none => (false, st)
  | some (some cs) =>
    if env.setCookiesOK then (true, { st with cookies := cs })
    else (false, st)

/-- Oracle for one ValidateSession call: navigation outcome, the URL read
(none = chromedp error) and the account-menu query result
(none = evaluation error). -/
structure ValidateEnv where
  navOK : Bool
  url : Option String
  userExists : Option Bool
  deriving DecidableEq, Repr

/-- The boolean ValidateSession computes: navigation must succeed, the URL
must be readable and off the login path, and the account-menu element must
be found without an evaluation error. -/
def validateBool (env : ValidateEnv) : Bool :=
  if !env.navOK then false
  else match env.url with
    | none => false
    | some u =>
      if strContains u loginPath then false
      else match env.userExists with
        | some b => b
        | none => false

/-- ValidateSession from auth.go is a read-only check: it never mutates the
manager state. -/
def ValidateSession (env : ValidateEnv) (st : ManagerState) : Bool × ManagerState :=
  (validateBool env, st)

/-- What the driver reports during one iteration of the ManualLogin poll
loop: the current URL (none = chromedp.Location failed, e.g. because the
context was cancelled) and the combined login-signal evaluation
(none = evaluation error, some b = the disjunction of the five signals). -/
structure PollObs where
  url : Option String
  userSignal : Option Bool
  deriving DecidableEq, Repr

/-- One ManualLogin poll detects login exactly when the URL is readable, is
off the login path, and the signal evaluation succeeds with true.  A URL
read error makes the iteration continue; so does a URL still on the login
path, an evaluation error, or a false signal. -/
def pollSuccess (o : PollObs) : Bool :=
  match o.url with
  | none => false
  | some u =>
    if strContains u loginPath then false
    else match o.userSignal with
      | some b => b
      | none => false

/-- Result of the ManualLogin poll loop: detection during the given 1-based
poll, or the timeout check firing with the given elapsed seconds. -/
inductive MLOutcome where
  | detected (pollIdx : Nat) : MLOutcome
  | timedOut (elapsedSec : Nat) : MLOutcome
  deriving DecidableEq, Repr

/-- The ManualLogin poll loop of auth.go.  Iteration k starts with elapsed
time 2*k seconds (time advances only in time.Sleep(2s)); the loop first
checks time.Since(startTime) > 5*time.Minute, then sleeps one 2-second tick
and performs poll number k+1.  The loop provably terminates: the timeout
check fires at iteration 151 at the latest. -/
def mlLoopGo (p : Nat → PollObs) (k : Nat) : MLOutcome :=
  if h : 300 < 2 * k then .timedOut (2 * k)
  else if pollSuccess (p k) then .detected (k + 1)
  else mlLoopGo p (k + 1)
termination_by 151 - k
decreasing_by omega

/-- Oracle for one ManualLogin call: the initial navigation outcome, the
per-iteration poll observations, and the SaveSession oracle used after
detection. -/
structure MLEnv where
  navOK : Bool
  poll : Nat → PollObs
  save : SaveEnv

/-- ManualLogin from auth.go: navigate to the login page, then poll.  On
detection it sets m.isLoggedIn = true and returns SaveSession's outcome; on
timeout it returns the timeout error.  The third component records the
1-based poll at which detection happened (none = no detection). -/
def ManualLogin (env : MLEnv) (st : ManagerState) : Option GoErr × ManagerState × Option Nat :=
  if !env.navOK then (some .navErr, st, none)
  else
    match mlLoopGo env.poll 0 with
    | .timedOut _ => (some .timeoutErr, st, none)
    | .detected i =>
      let r := SaveSession env.save { st with isLoggedIn := true }
      (r.1, r.2, some i)

/-- The configured credentials and base URL (config.Config fields the auth
package reads). -/
structure Cfg where
  baseURL : String
  username : String
  password : String
  deriving DecidableEq, Repr

/-- Oracle for one PerformLogin call: navigation, the two URL reads, the
form wait, the two typing actions, the submit click, and the SaveSession
oracle. -/
structure PerformEnv where
  navOK : Bool
  url1 : Option String
  waitFormOK : Bool
  typeUserOK : Bool
  typePassOK : Bool
  clickOK : Bool
  url2 : Option String
  save : SaveEnv
  deriving DecidableEq, Repr

/-- PerformLogin from auth.go: navigate, short-circuit to SaveSession when
already redirected off the login path, otherwise wait for the form, fill
and submit it when both credentials are configured, re-check the URL, and
fail when still on the login path. -/
def PerformLogin (cfg : Cfg) (env : PerformEnv) (st : ManagerState) : Option GoErr × ManagerState :=
  if !env.navOK then (some .navErr, st)
  else match env.url1 with
  | none => (some .locationErr, st)
  | some u1 =>
    if !(u1 == cfg.baseURL ++ loginPath) && !(strContains u1 loginPath) then
      SaveSession env.save st
    else if !env.waitFormOK then (some .formNotFoundErr, st)
    else if !(cfg.username == "") && !(cfg.password == "") then
      if !env.typeUserOK then (some .typeErr, st)
      else if !env.typePassOK then (some .typeErr, st)
      else if !env.clickOK then (some .clickErr, st)
      else match env.url2 with
        | none => (some .locationErr, st)
        | some u2 =>
          if strContains u2 loginPath then (some .stillOnLoginErr, st)
          else SaveSession env.save st
    else (some .noCredsErr, st)

/-- Which login path a Login call took: session reuse (no login strategy
invoked), the manual strategy, or the automatic strategy. -/
inductive Strategy where
  | reuse : Strategy
  | manual : Strategy
  | automatic : Strategy
  deriving DecidableEq, Repr

/-- Oracle for one Login call: the oracles of the operations it may invoke. -/
structure LoginEnv where
  load : LoadEnv
  validate : ValidateEnv
  ml : MLEnv
  pl : PerformEnv

/-- The strategy branch of Login in auth.go: manual when the configured
username or password is empty, automatic otherwise. -/
def loginStrategy (cfg : Cfg) (env : LoginEnv) (st : ManagerState) :
    Option GoErr × ManagerState × Strategy :=
  if (cfg.username == "") || (cfg.password == "") then
    let r := ManualLogin env.ml st
    (r.1, r.2.1, .manual)
  else
    let r := PerformLogin cfg env.pl st
    (r.1, r.2, .automatic)

/-- Login from auth.go: try LoadSession then ValidateSession; when both
succeed set m.isLoggedIn = true and return nil without invoking a login
strategy; otherwise fall through to the credential check. -/
def Login (cfg : Cfg) (env : LoginEnv) (st : ManagerState) :
    Option GoErr × ManagerState × Strategy :=
  let l := LoadSession env.load st
  if l.1 then
    let v := ValidateSession env.validate l.2
    if v.1 then (none, { v.2 with isLoggedIn := true }, .reuse)
    else loginStrategy cfg env v.2
  else loginStrategy cfg env l.2

/-- Logout from auth.go: clear the driver cookies (failure returns without
mutating), delete the session file, reset m.isLoggedIn and m.cookies. -/
def Logout (clearOK : Bool) (st : ManagerState) : Option GoErr × ManagerState :=
  if clearOK then (none, { cookies := [], isLoggedIn := false })
  else (some .clearCookiesErr, st)

/-- One Session Manager operation together with the driver oracle for that
call, for reasoning about arbitrary operation sequences. -/
inductive AuthOp where
  | login (cfg : Cfg) (env : LoginEnv) : AuthOp
  | manualLogin (env : MLEnv) : AuthOp
  | performLogin (cfg : Cfg) (env : PerformEnv) : AuthOp
  | saveSession (env : SaveEnv) : AuthOp
  | loadSession (env : LoadEnv) : AuthOp
  | validateSession (env : ValidateEnv) : AuthOp
  | logout (clearOK : Bool) : AuthOp

/-- The manager state after one operation. -/
def stepOp (st : ManagerState) : AuthOp → ManagerState
  | .login cfg env => (Login cfg env st).2.1
  | .manualLogin env => (ManualLogin env st).2.1
  | .performLogin cfg env => (PerformLogin cfg env st).2
  | .saveSession env => (SaveSession env st).2
  | .loadSession env => (LoadSession env st).2
  | .validateSession env => (ValidateSession env st).2
  | .logout ok => (Logout ok st).2

/-- The manager state reached from NewManager by a sequence of operations. -/
def runOps (ops : List AuthOp) : ManagerState := ops.foldl stepOp initialState

/-- Every cookie list this SaveSession oracle can hand over is non-empty. -/
def SaveEnvGood (e : SaveEnv) : Prop := ∀ cs, e.getCookies = some cs → cs ≠ []

/-- This SaveSession oracle's cookie read succeeds with a non-empty list. -/
def SaveEnvCaptures (e : SaveEnv) : Prop := ∃ cs, e.getCookies = some cs ∧ cs ≠ []

/-- Every cookie list this LoadSession oracle can parse is non-empty. -/
def LoadEnvGood (e : LoadEnv) : Prop := ∀ cs, e.fileContent = some (some cs) → cs ≠ []

/-- Driver-side hypotheses under which an operation cannot leave the flag
set with an empty cookie list: cookie captures and loads yield non-empty
lists, and the capture attempted right after a manual-login detection does
not fail (ManualLogin sets m.isLoggedIn = true before calling SaveSession). -/
def OpGood : AuthOp → Prop
  | .login _ env => LoadEnvGood env.load ∧ SaveEnvCaptures env.ml.save ∧ SaveEnvGood env.pl.save
  | .manualLogin env => SaveEnvCaptures env.save
  | .performLogin _ env => SaveEnvGood env.save
  | .saveSession env => SaveEnvGood env
  | .loadSession env => LoadEnvGood env
  | .validateSession _ => True
  | .logout _ => True

/-- The invariant the spec asserts about the Session Manager. -/
def CookieInv (st : ManagerState) : Prop := st.isLoggedIn = true → st.cookies ≠ []

/-- Oracle for one RetryPurchase call: the configured bounds and the result
of the i-th (0-based) ExecutePurchase attempt. -/
structure RetryEnv where
  maxRetries : Nat
  retryDelaySec : Nat
  attempt : Nat → Option GoErr

/-- The RetryPurchase loop of executor.go: before every attempt after the
first, sleep retryDelay * i; stop at the first successful attempt; after
maxRetries failures wrap the last error.  The accumulator returns the Go
return value, the list of sleep durations (seconds, in order) and the
number of ExecutePurchase calls made. -/
def wrapLast (n : Nat) : Option GoErr → GoErr
  | some e => .allAttemptsFailed n e
  | none => .allAttemptsFailedNil n

def retryLoop (env : RetryEnv) (i : Nat) (lastErr : Option GoErr) (sleeps : List Nat)
    (tries : Nat) : Option GoErr × List Nat × Nat :=
  if _h : i < env.maxRetries then
    let sl := if 0 < i then sleeps ++ [env.retryDelaySec * i] else sleeps
    match env.attempt i with
    | none => (none, sl, tries + 1)
    | some e => retryLoop env (i + 1) (some e) sl (tries + 1)
  else (some (wrapLast env.maxRetries lastErr), sleeps, tries)
termination_by env.maxRetries - i
decreasing_by omega

/-- RetryPurchase from executor.go (the identical loop also appears in the
purchase package's other revision). -/
def RetryPurchase (env : RetryEnv) : Option GoErr × List Nat × Nat :=
  retryLoop env 0 none [] 0

namespace Livestream

/-- The ordered selector candidates checkProductAvailability scans (their
CSS text is irrelevant to the control flow; only the order and count
matter). -/
def selectors : List String :=
  ["button.add-to-cart", "button.buy-now", "button.add-cart",
   "div.shop-bag button", ".shopee-button-solid"]

/-- What the driver reports during one poll tick: per selector index the
querySelector evaluation (none = evaluation error) and, would a purchase be
attempted, the ExecutePurchase outcome. -/
structure CheckObs where
  evalResult : Nat → Option Bool
  purchase : Option GoErr

/-- The selector scan of checkProductAvailability: the first selector whose
evaluation succeeds with true wins; the executor is invoked on it and its
outcome — error or nil — is returned at once.  The second component lists
the selector indices on which ExecutePurchase was invoked. -/
def checkLoop (obs : CheckObs) : List Nat → Option GoErr × List Nat
  | [] => (none, [])
  | i :: rest =>
    match obs.evalResult i with
    | some true => (obs.purchase, [i])
    | _ => checkLoop obs rest

/-- checkProductAvailability from the livestream monitor. -/
def checkProductAvailability (obs : CheckObs) : Option GoErr × List Nat :=
  checkLoop obs (List.range selectors.length)

/-- One event at the select statement of the monitorStream loop: the
cancellation channel firing, or the ticker firing with that tick's
observations. -/
inductive MonEvent where
  | cancel : MonEvent
  | tick (obs : CheckObs) : MonEvent

/-- Whether the loop has returned (with the Go return value; none = nil) or
is still polling when the event schedule runs out. -/
inductive RunOutcome where
  | running : RunOutcome
  | done (e : Option GoErr) : RunOutcome
  deriving DecidableEq, Repr

/-- The monitorStream select loop: on cancellation return ctx.Err()
(context.Canceled, non-nil); on a tick run checkProductAvailability, log a
non-nil result without returning it, and keep looping.  The second
component accumulates the executor invocations of all ticks. -/
def monitorLoop : List MonEvent → RunOutcome × List Nat
  | [] => (.running, [])
  | .cancel :: _ => (.done (some .ctxCanceled), [])
  | .tick obs :: rest =>
    let c := checkProductAvailability obs
    let r := monitorLoop rest
    (r.1, c.2 ++ r.2)

/-- monitorStream from the livestream monitor: navigation failure after the
bounded retries returns a wrapped error; otherwise enter the loop. -/
def monitorStream (navResult : Option GoErr) (sched : List MonEvent) :
    RunOutcome × List Nat :=
  match navResult with
  | some e => (.done (some (.navWrapped e)), [])
  | none => monitorLoop sched

/-- The Go return value of a completed run (RunOutcome.running never occurs
for the runs the aggregate theorems quantify over). -/
def runReturn : RunOutcome → Option GoErr
  | .running => none
  | .done e => e

/-- errgroup.Group.Wait over the task return values in completion order:
the first non-nil error, or nil when every task returned nil. -/
def gWait (results : List (Option GoErr)) : Option GoErr :=
  results.foldl (fun acc r => match acc with | some e => some e | none => r) none

/-- Monitor.Start's treatment of g.Wait(): wrap a non-nil error as a
monitoring error, return nil otherwise. -/
def startResult (results : List (Option GoErr)) : Option GoErr :=
  match gWait results with
  | some e => some (.monitoringError e)
  | none => none

end Livestream

/-! Theorems.  First the substring helpers, then the per-claim results. -/

lemma purchase_contains_iff (s sub : List Char) :
    Purchase.contains s sub = true ↔
      ∃ i, i + sub.length ≤ s.length ∧ (s.drop i).take sub.length = sub := by
  unfold Purchase.contains
  by_cases h : sub.length ≤ s.length
  · simp only [if_pos h, List.any_eq_true, List.mem_range, decide_eq_true_eq]
    constructor
    · rintro ⟨i, hi, hsl⟩
      exact ⟨i, by omega, hsl⟩
    · rintro ⟨i, hi, hsl⟩
      exact ⟨i, by omega, hsl⟩
  · simp only [if_neg h, Bool.false_eq_true, false_iff]
    rintro ⟨i, hi, _⟩
    omega

lemma findSubstring_iff (s sub : List Char) :
    Auth.findSubstring s sub = true ↔
      ∃ i, i + sub.length ≤ s.length ∧ (s.drop i).take sub.length = sub :=
  purchase_contains_iff s sub

lemma occurs_iff_slice (s sub : List Char) :
    (∃ pre post, s = pre ++ sub ++ post) ↔
      ∃ i, i + sub.length ≤ s.length ∧ (s.drop i).take sub.length = sub := by
  constructor
  · rintro ⟨pre, post, rfl⟩
    refine ⟨pre.length, ?_, ?_⟩
    · simp [List.length_append]
    · rw [List.append_assoc, List.drop_left pre (sub ++ post), List.take_left sub post]
  · rintro ⟨i, hle, hsl⟩
    refine ⟨s.take i, s.drop (i + sub.length), ?_⟩
    have hd : s.drop i = sub ++ s.drop (i + sub.length) := by
      conv_lhs => rw [← List.take_append_drop sub.length (s.drop i)]
      rw [hsl, List.drop_drop, Nat.add_comm]
    rw [List.append_assoc, ← hd, List.take_append_drop]

lemma auth_contains_iff (s sub : List Char) :
    Auth.contains s sub = true ↔
      ∃ i, i + sub.length ≤ s.length ∧ (s.drop i).take sub.length = sub := by
  unfold Auth.contains
  simp only [Bool.or_eq_true, Bool.and_eq_true, decide_eq_true_eq]
  constructor
  · rintro ((⟨hle, hpre⟩ | ⟨hlt, hsuf⟩) | ⟨hlt, hfind⟩)
    · exact ⟨0, by omega, by simpa using hpre⟩
    · refine ⟨s.length - sub.length, by omega, ?_⟩
      rw [List.take_of_length_le (by rw [List.length_drop]; omega)]
      exact hsuf
    · exact (findSubstring_iff s sub).mp hfind
  · rintro ⟨i, hle, hsl⟩
    by_cases hlt : sub.length < s.length
    · exact Or.inr ⟨hlt, (findSubstring_iff s sub).mpr ⟨i, hle, hsl⟩⟩
    · have hi : i = 0 := by omega
      subst hi
      exact Or.inl (Or.inl ⟨by omega, by simpa using hsl⟩)

lemma pollSuccess_of_url_error {o : PollObs} (h : o.url = none) :
    pollSuccess o = false := by
  simp [pollSuccess, h]

lemma pollSuccess_of_login_url {o : PollObs} {u : String} (hu : o.url = some u)
    (hc : strContains u loginPath = true) : pollSuccess o = false := by
  simp [pollSuccess, hu, hc]

lemma pollSuccess_of_auth_page {o : PollObs} {u : String} (hu : o.url = some u)
    (hc : strContains u loginPath = false) (hs : o.userSignal = some true) :
    pollSuccess o = true := by
  simp [pollSuccess, hu, hc, hs]

lemma mlLoopGo_timeout_aux (p : Nat → PollObs)
    (hp : ∀ k, k ≤ 150 → pollSuccess (p k) = false) :
    ∀ d j, 151 ≤ j + d → j ≤ 151 → mlLoopGo p j = .timedOut 302 := by
  intro d
  induction d with
  | zero =>
    intro j h1 h2
    have hj : j = 151 := by omega
    subst hj
    rw [mlLoopGo]
    norm_num
  | succ d ih =>
    intro j h1 h2
    by_cases hj : j = 151
    · subst hj
      rw [mlLoopGo]
      norm_num
    · have hj1 : j ≤ 150 := by omega
      rw [mlLoopGo, dif_neg (show ¬ 300 < 2 * j by omega), hp j hj1]
      simpa using ih (j + 1) (by omega) (by omega)

/-- When no poll ever reports a login-success signal, the ManualLogin loop
runs exactly 151 polls and returns via the timeout check at elapsed
302 seconds. -/
lemma mlLoopGo_timeout (p : Nat → PollObs)
    (hp : ∀ k, pollSuccess (p k) = false) : mlLoopGo p 0 = .timedOut 302 :=
  mlLoopGo_timeout_aux p (fun k _ => hp k) 151 0 (by omega) (by omega)

lemma mlLoopGo_detect_aux (p : Nat → PollObs) (N : Nat) (hN : N ≤ 150)
    (hbefore : ∀ k, k < N → pollSuccess (p k) = false)
    (hat : pollSuccess (p N) = true) :
    ∀ d j, N ≤ j + d → j ≤ N → mlLoopGo p j = .detected (N + 1) := by
  intro d
  induction d with
  | zero =>
    intro j h1 h2
    have hj : j = N := by omega
    subst hj
    rw [mlLoopGo, dif_neg (show ¬ 300 < 2 * j by omega), hat]
    simp
  | succ d ih =>
    intro j h1 h2
    by_cases hj : j = N
    · subst hj
      rw [mlLoopGo, dif_neg (show ¬ 300 < 2 * j by omega), hat]
      simp
    · rw [mlLoopGo, dif_neg (show ¬ 300 < 2 * j by omega), hbefore j (by omega)]
      simpa using ih (j + 1) (by omega) (by omega)

lemma mlLoopGo_timedOut_gt_aux (p : Nat → PollObs) :
    ∀ d j e, 151 - j ≤ d → mlLoopGo p j = .timedOut e → 300 < e := by
  intro d
  induction d with
  | zero =>
    intro j e h1 h2
    rw [mlLoopGo, dif_pos (show 300 < 2 * j by omega)] at h2
    cases h2
    omega
  | succ d ih =>
    intro j e h1 h2
    by_cases hc : 300 < 2 * j
    · rw [mlLoopGo, dif_pos hc] at h2
      cases h2
      omega
    · rw [mlLoopGo, dif_neg hc] at h2
      by_cases hs : pollSuccess (p j) = true
      · rw [if_pos hs] at h2
        exact MLOutcome.noConfusion h2
      · rw [if_neg hs] at h2
        exact ih (j + 1) e (by omega) h2

/-- The ManualLogin loop can only return the timeout outcome with an
elapsed time strictly beyond the 300-second ceiling. -/
lemma mlLoopGo_timedOut_gt (p : Nat → PollObs) (j e : Nat)
    (h : mlLoopGo p j = .timedOut e) : 300 < e :=
  mlLoopGo_timedOut_gt_aux p 151 j e (by omega) h

lemma ManualLogin_timeout_result (env : MLEnv) (st : ManagerState)
    (hnav : env.navOK = true) (e : Nat)
    (hto : mlLoopGo env.poll 0 = .timedOut e) :
    ManualLogin env st = (some GoErr.timeoutErr, st, none) := by
  rw [ManualLogin, hnav, hto]
  rfl

lemma ManualLogin_detected_result (env : MLEnv) (st : ManagerState)
    (hnav : env.navOK = true) (i : Nat)
    (hd : mlLoopGo env.poll 0 = .detected i) :
    ManualLogin env st =
      ((SaveSession env.save { st with isLoggedIn := true }).1,
       (SaveSession env.save { st with isLoggedIn := true }).2, some i) := by
  rw [ManualLogin, hnav, hd]
  rfl

/-- C4: with navigation succeeding and a driver that never produces a
login-success signal, ManualLogin terminates with the timeout error; the
loop reaches the timeout check with elapsed time 302 s, strictly beyond the
300 s ceiling (151 polls, one per 2-second tick), and no run of the loop
can return the timeout outcome at or before the ceiling. -/
theorem C4_manual_login_timeout (env : MLEnv) (st : ManagerState)
    (hnav : env.navOK = true)
    (hnever : ∀ k, pollSuccess (env.poll k) = false) :
    ManualLogin env st = (some GoErr.timeoutErr, st, none) ∧
    mlLoopGo env.poll 0 = MLOutcome.timedOut 302 ∧
    (∀ j e, mlLoopGo env.poll j = MLOutcome.timedOut e → 300 < e) := by
  have hto := mlLoopGo_timeout env.poll hnever
  exact ⟨ManualLogin_timeout_result env st hnav 302 hto, hto,
    fun j e h => mlLoopGo_timedOut_gt env.poll j e h⟩

/-- C4 witness: a driver whose URL read always fails never signals success,
so ManualLogin at that driver returns the timeout error. -/
theorem C4_witness :
    ManualLogin ⟨true, fun _ => ⟨none, none⟩, ⟨none, false⟩⟩ initialState =
      (some GoErr.timeoutErr, initialState, none) :=
  (C4_manual_login_timeout ⟨true, fun _ => ⟨none, none⟩, ⟨none, false⟩⟩
    initialState rfl (fun _ => rfl)).1

/-- C1 amended: when the driver reports a login-path URL for the first N
polls and from poll N+1 on a URL off the login path together with a
positive login-signal evaluation, and poll N+1 still falls inside the
5-minute ceiling (N ≤ 150), ManualLogin leaves the poll loop exactly at
poll N+1 — never earlier — sets isLoggedIn, and its result is exactly the
outcome of the SaveSession cookie capture performed before returning. -/
theorem C1_manual_login_detection (env : MLEnv) (st : ManagerState) (N : Nat)
    (hN : N ≤ 150) (hnav : env.navOK = true)
    (hlogin : ∀ k, k < N →
      ∃ u, (env.poll k).url = some u ∧ strContains u loginPath = true)
    (hauth : ∀ k, N ≤ k → ∃ u, (env.poll k).url = some u ∧
      strContains u loginPath = false ∧ (env.poll k).userSignal = some true) :
    ManualLogin env st =
      ((SaveSession env.save { st with isLoggedIn := true }).1,
       (SaveSession env.save { st with isLoggedIn := true }).2,
       some (N + 1)) := by
  have hbefore : ∀ k, k < N → pollSuccess (env.poll k) = false := by
    intro k hk
    obtain ⟨u, hu, hc⟩ := hlogin k hk
    exact pollSuccess_of_login_url hu hc
  have hat : pollSuccess (env.poll N) = true := by
    obtain ⟨u, hu, hc, hs⟩ := hauth N (le_refl N)
    exact pollSuccess_of_auth_page hu hc hs
  exact ManualLogin_detected_result env st hnav (N + 1)
    (mlLoopGo_detect_aux env.poll N hN hbefore hat N 0 (by omega) (by omega))

/-- C1 witness: one login-page poll, then an authenticated page; detection
on poll 2, cookies captured, success returned. -/
theorem C1_witness :
    ManualLogin
      ⟨true,
       fun k => if k < 1 then ⟨some "/buyer/login", some false⟩
                else ⟨some "/x", some true⟩,
       ⟨some [⟨"SPC_EC", "w", "d", "/", true, true⟩], true⟩⟩ initialState =
      (none, ⟨[⟨"SPC_EC", "w", "d", "/", true, true⟩], true⟩, some 2) := by
  rw [C1_manual_login_detection _ initialState 1 (by omega) rfl
    (by
      intro k hk
      refine ⟨"/buyer/login", ?_, by decide⟩
      show (if k < 1 then (⟨some "/buyer/login", some false⟩ : PollObs)
            else ⟨some "/x", some true⟩).url = _
      rw [if_pos hk])
    (by
      intro k hk
      have hnk : ¬ k < 1 := by omega
      refine ⟨"/x", ?_, by decide, ?_⟩
      · show (if k < 1 then (⟨some "/buyer/login", some false⟩ : PollObs)
              else ⟨some "/x", some true⟩).url = some "/x"
        rw [if_neg hnk]
      · show (if k < 1 then (⟨some "/buyer/login", some false⟩ : PollObs)
              else ⟨some "/x", some true⟩).userSignal = some true
        rw [if_neg hnk])]
  rfl

/-- C1 counterexample: at N = 151 the claim as stated predicts success on
poll 152, but poll 152 never happens: the timeout check fires at iteration
151 (elapsed 302 s > 300 s), so ManualLogin returns the timeout error with
no detection and no saved session. -/
theorem C1_counterexample :
    ManualLogin
      ⟨true,
       fun k => if k < 151 then ⟨some "/buyer/login", some false⟩
                else ⟨some "/x", some true⟩,
       ⟨some [⟨"SPC_EC", "w", "d", "/", true, true⟩], true⟩⟩ initialState =
      (some GoErr.timeoutErr, initialState, none) := by
  refine ManualLogin_timeout_result _ initialState rfl 302 ?_
  refine mlLoopGo_timeout_aux _ ?_ 151 0 (by omega) (by omega)
  intro k hk
  show pollSuccess (if k < 151 then (⟨some "/buyer/login", some false⟩ : PollObs)
      else ⟨some "/x", some true⟩) = false
  rw [if_pos (show k < 151 by omega)]
  decide

/-- C5 counterexample: with the caller's context cancelled before the first
poll every driver call inside the loop fails, yet each iteration merely
logs the error and continues: the loop performs all 151 polls and exits at
elapsed 302 s with the generic timeout error, instead of observing the
cancellation at the next poll boundary and exiting within one 2-second
tick with a cancellation result (the code has no cancellation exit). -/
theorem C5_counterexample :
    mlLoopGo (fun _ => ⟨none, none⟩) 0 = MLOutcome.timedOut 302 ∧
    ManualLogin ⟨true, fun _ => ⟨none, none⟩, ⟨none, true⟩⟩ initialState =
      (some GoErr.timeoutErr, initialState, none) :=
  ⟨mlLoopGo_timeout _ (fun _ => rfl),
   ManualLogin_timeout_result _ _ rfl 302 (mlLoopGo_timeout _ (fun _ => rfl))⟩

/-- C5 amended: the ManualLogin loop never observes cancellation.  An
iteration whose URL read fails — as every driver call does once the
context is cancelled — continues with the next iteration rather than
exiting, and when every driver call fails the loop leaves only through the
5-minute ceiling with the timeout error, not with a cancellation result
within one tick. -/
theorem C5_cancellation_not_observed (p : Nat → PollObs) (k : Nat)
    (hk : 2 * k ≤ 300) (hfail : (p k).url = none) :
    mlLoopGo p k = mlLoopGo p (k + 1) ∧
    ((∀ j, (p j).url = none) → mlLoopGo p 0 = MLOutcome.timedOut 302) := by
  constructor
  · conv_lhs => rw [mlLoopGo]
    rw [dif_neg (show ¬ 300 < 2 * k by omega), pollSuccess_of_url_error hfail]
    simp
  · intro hall
    exact mlLoopGo_timeout p (fun j => pollSuccess_of_url_error (hall j))

/-- C5 witness: the first iteration of a loop whose driver calls all fail
continues into the second iteration. -/
theorem C5_witness :
    mlLoopGo (fun _ => (⟨none, none⟩ : PollObs)) 0 =
      mlLoopGo (fun _ => (⟨none, none⟩ : PollObs)) 1 :=
  (C5_cancellation_not_observed _ 0 (by omega) rfl).1

lemma retryLoop_step (env : RetryEnv) (i : Nat) (lastErr : Option GoErr)
    (sleeps : List Nat) (tries : Nat) (hi : i < env.maxRetries) (e : GoErr)
    (he : env.attempt i = some e) :
    retryLoop env i lastErr sleeps tries =
      retryLoop env (i + 1) (some e)
        (if 0 < i then sleeps ++ [env.retryDelaySec * i] else sleeps)
        (tries + 1) := by
  conv_lhs => rw [retryLoop.eq_def]
  rw [dif_pos hi]
  simp only [he]

lemma retryLoop_win (env : RetryEnv) (i : Nat) (lastErr : Option GoErr)
    (sleeps : List Nat) (tries : Nat) (hi : i < env.maxRetries)
    (he : env.attempt i = none) :
    retryLoop env i lastErr sleeps tries =
      (none, (if 0 < i then sleeps ++ [env.retryDelaySec * i] else sleeps),
       tries + 1) := by
  conv_lhs => rw [retryLoop.eq_def]
  rw [dif_pos hi]
  simp only [he]

lemma retryLoop_exhausted (env : RetryEnv) (i : Nat) (lastErr : Option GoErr)
    (sleeps : List Nat) (tries : Nat) (hi : ¬ i < env.maxRetries) :
    retryLoop env i lastErr sleeps tries =
      (some (wrapLast env.maxRetries lastErr), sleeps, tries) := by
  conv_lhs => rw [retryLoop.eq_def]
  rw [dif_neg hi]

lemma retryLoop_success_aux (env : RetryEnv) :
    ∀ d i lastErr sleeps tries, i + d < env.maxRetries →
      (∀ m, m < d → (env.attempt (i + m)).isSome = true) →
      env.attempt (i + d) = none →
      (retryLoop env i lastErr sleeps tries).1 = none ∧
      (retryLoop env i lastErr sleeps tries).2.2 = tries + d + 1 := by
  intro d
  induction d with
  | zero =>
    intro i lastErr sleeps tries h1 h2 h3
    rw [retryLoop_win env i lastErr sleeps tries (by omega) (by simpa using h3)]
    exact ⟨rfl, rfl⟩
  | succ d ih =>
    intro i lastErr sleeps tries h1 h2 h3
    have h0 : (env.attempt i).isSome = true := by simpa using h2 0 (by omega)
    obtain ⟨e, he⟩ := Option.isSome_iff_exists.mp h0
    rw [retryLoop_step env i lastErr sleeps tries (by omega) e he]
    have hsh : ∀ m, m < d → (env.attempt (i + 1 + m)).isSome = true := by
      intro m hm
      have h := h2 (m + 1) (by omega)
      rwa [show i + (m + 1) = i + 1 + m by omega] at h
    have hlast : env.attempt (i + 1 + d) = none := by
      rwa [show i + (d + 1) = i + 1 + d by omega] at h3
    obtain ⟨ha, hb⟩ := ih (i + 1) (some e)
      (if 0 < i then sleeps ++ [env.retryDelaySec * i] else sleeps)
      (tries + 1) (by omega) hsh hlast
    exact ⟨ha, by omega⟩

/-- C2: with maxRetries = 3 and ExecutePurchase failing on every attempt,
RetryPurchase makes exactly 3 attempts, sleeps retryDelay*1 before the
second and retryDelay*2 before the third (linear backoff, no sleep before
the first), and returns an error wrapping the third attempt's error and
reporting that all 3 attempts failed; and for any configuration, an
attempt that succeeds ends the loop at once with a nil error and no
further attempts. -/
theorem C2_retry_bound_and_backoff (env : RetryEnv) (errs : Nat → GoErr)
    (h3 : env.maxRetries = 3)
    (hf : ∀ i, i < 3 → env.attempt i = some (errs i)) :
    RetryPurchase env =
      (some (GoErr.allAttemptsFailed 3 (errs 2)),
       [env.retryDelaySec * 1, env.retryDelaySec * 2], 3) ∧
    (∀ env2 j, j < env2.maxRetries →
      (∀ i, i < j → (env2.attempt i).isSome = true) → env2.attempt j = none →
      (RetryPurchase env2).1 = none ∧ (RetryPurchase env2).2.2 = j + 1) := by
  constructor
  · rw [RetryPurchase,
      retryLoop_step env 0 none [] 0 (by omega) (errs 0) (hf 0 (by omega)),
      retryLoop_step env 1 _ _ 1 (by omega) (errs 1) (hf 1 (by omega)),
      retryLoop_step env 2 _ _ 2 (by omega) (errs 2) (hf 2 (by omega)),
      retryLoop_exhausted env 3 _ _ 3 (by omega)]
    simp [h3, wrapLast]
  · intro env2 j hj hsome hnone
    have h := retryLoop_success_aux env2 j 0 none [] 0 (by omega)
      (by intro m hm; simpa using hsome m hm) (by simpa using hnone)
    exact ⟨h.1, by have := h.2; simpa using this⟩

/-- C2 witness: maxRetries = 3, retryDelay = 5 s, every attempt failing
with the same error: three attempts, sleeps of 5 s and 10 s, and the
exhaustion error wrapping the last failure. -/
theorem C2_witness :
    RetryPurchase ⟨3, 5, fun _ => some GoErr.clickErr⟩ =
      (some (GoErr.allAttemptsFailed 3 GoErr.clickErr), [5, 10], 3) := by
  have h := (C2_retry_bound_and_backoff ⟨3, 5, fun _ => some GoErr.clickErr⟩
    (fun _ => GoErr.clickErr) rfl (fun i _ => rfl)).1
  norm_num at h
  exact h

lemma Login_eq_cases (cfg : Cfg) (env : LoginEnv) (st : ManagerState) :
    Login cfg env st =
      (if (LoadSession env.load st).1 && validateBool env.validate then
        (none, { (LoadSession env.load st).2 with isLoggedIn := true }, Strategy.reuse)
      else if (cfg.username == "") || (cfg.password == "") then
        ((ManualLogin env.ml (LoadSession env.load st).2).1,
         (ManualLogin env.ml (LoadSession env.load st).2).2.1, Strategy.manual)
      else
        ((PerformLogin cfg env.pl (LoadSession env.load st).2).1,
         (PerformLogin cfg env.pl (LoadSession env.load st).2).2, Strategy.automatic)) := by
  unfold Login loginStrategy ValidateSession
  rcases hl : (LoadSession env.load st).1 <;>
    rcases hv : validateBool env.validate <;>
      rcases hc : (cfg.username == "") || (cfg.password == "") <;>
        simp [hl, hv, hc]

/-- C3: Login first runs LoadSession and then ValidateSession; when both
succeed it returns nil with the loaded cookies and the flag set, invoking
no login strategy; otherwise it invokes exactly one strategy — ManualLogin
when the configured username or password is empty, PerformLogin when both
are present — on the post-LoadSession state. -/
theorem C3_login_strategy_selection (cfg : Cfg) (env : LoginEnv) (st : ManagerState) :
    Login cfg env st =
      (if (LoadSession env.load st).1 && validateBool env.validate then
        (none, { (LoadSession env.load st).2 with isLoggedIn := true }, Strategy.reuse)
      else if (cfg.username == "") || (cfg.password == "") then
        ((ManualLogin env.ml (LoadSession env.load st).2).1,
         (ManualLogin env.ml (LoadSession env.load st).2).2.1, Strategy.manual)
      else
        ((PerformLogin cfg env.pl (LoadSession env.load st).2).1,
         (PerformLogin cfg env.pl (LoadSession env.load st).2).2, Strategy.automatic)) :=
  Login_eq_cases cfg env st

open Livestream in
lemma monitorLoop_append (mid sched : List MonEvent)
    (h : ∀ e ∈ mid, e ≠ MonEvent.cancel) :
    monitorLoop (mid ++ sched) =
      ((monitorLoop sched).1, (monitorLoop mid).2 ++ (monitorLoop sched).2) := by
  induction mid with
  | nil => simp [monitorLoop]
  | cons e rest ih =>
    cases e with
    | cancel => exact absurd rfl (h _ (List.mem_cons_self _ _))
    | tick obs =>
      have hrest : ∀ x ∈ rest, x ≠ MonEvent.cancel :=
        fun x hx => h x (List.mem_cons_of_mem _ hx)
      simp [monitorLoop, ih hrest, List.append_assoc]

open Livestream in
/-- C6: a detection does not stop the per-stream loop.  After a tick whose
selector scan fires (whatever ExecutePurchase returned — an error is
logged, not returned as the task's error), the loop keeps processing the
remaining schedule, so its final outcome is that of the rest of the
schedule; and two detecting ticks separated by cancel-free events produce
at least two independent executor invocations. -/
theorem C6_idempotent_detection (obs1 obs2 : CheckObs) (mid rest : List MonEvent)
    (hmid : ∀ e ∈ mid, e ≠ MonEvent.cancel)
    (h1 : (checkProductAvailability obs1).2 ≠ [])
    (h2 : (checkProductAvailability obs2).2 ≠ []) :
    (monitorLoop (MonEvent.tick obs1 :: (mid ++ MonEvent.tick obs2 :: rest))).1 =
      (monitorLoop rest).1 ∧
    2 ≤ (monitorLoop (MonEvent.tick obs1 :: (mid ++ MonEvent.tick obs2 :: rest))).2.length := by
  have hml := monitorLoop_append mid (MonEvent.tick obs2 :: rest) hmid
  have hlen1 := List.length_pos.mpr h1
  have hlen2 := List.length_pos.mpr h2
  constructor
  · simp only [monitorLoop, hml]
  · simp only [monitorLoop, hml, List.length_append]
    omega

open Livestream in
/-- C6 witness: the same winning selector detected on two consecutive
ticks — the first purchase failing, the second succeeding — yields two
executor invocations, and the task's outcome is the cancellation of the
remaining schedule. -/
theorem C6_witness :
    (monitorLoop
      [MonEvent.tick ⟨fun i => if i = 0 then some true else none, some (GoErr.purchaseFailed 7)⟩,
       MonEvent.tick ⟨fun i => if i = 0 then some true else none, none⟩,
       MonEvent.cancel]).1 = (monitorLoop [MonEvent.cancel]).1 ∧
    2 ≤ (monitorLoop
      [MonEvent.tick ⟨fun i => if i = 0 then some true else none, some (GoErr.purchaseFailed 7)⟩,
       MonEvent.tick ⟨fun i => if i = 0 then some true else none, none⟩,
       MonEvent.cancel]).2.length :=
  C6_idempotent_detection
    ⟨fun i => if i = 0 then some true else none, some (GoErr.purchaseFailed 7)⟩
    ⟨fun i => if i = 0 then some true else none, none⟩
    [] [MonEvent.cancel] (by simp) (by decide) (by decide)

open Livestream in
/-- C7 counterexample: one healthy stream task, cancellation firing between
two poll ticks.  The task returns ctx.Err() promptly, but Monitor.Start
wraps that plain cancellation error as a monitoring failure instead of
treating it as normal termination: the aggregate result is a non-nil
"monitoring error" wrapping context.Canceled. -/
theorem C7_counterexample :
    startResult [runReturn (monitorStream none
        [MonEvent.tick ⟨fun _ => none, none⟩, MonEvent.cancel]).1] =
      some (GoErr.monitoringError GoErr.ctxCanceled) ∧
    startResult [runReturn (monitorStream none
        [MonEvent.tick ⟨fun _ => none, none⟩, MonEvent.cancel]).1] ≠ none :=
  ⟨rfl, by simp [startResult, gWait, monitorStream, monitorLoop, runReturn,
    checkProductAvailability, checkLoop, selectors]⟩

open Livestream in
/-- C7 amended: a task that sees the cancellation signal at a poll boundary
returns immediately with the context's cancellation error and performs no
further selector checks or purchase invocations; but Start wraps the first
task error — a plain cancellation included — as a "monitoring error", so
cancellation of healthy tasks is reported as a monitoring failure. -/
theorem C7_cancellation_wrapped (rest : List MonEvent) (e : GoErr) :
    monitorLoop (MonEvent.cancel :: rest) =
      (RunOutcome.done (some GoErr.ctxCanceled), []) ∧
    startResult [some e] = some (GoErr.monitoringError e) :=
  ⟨rfl, rfl⟩

open Livestream in
lemma monitorLoop_ne_done_none (sched : List MonEvent) :
    (monitorLoop sched).1 ≠ RunOutcome.done none := by
  induction sched with
  | nil => simp [monitorLoop]
  | cons e rest ih =>
    cases e with
    | cancel => simp [monitorLoop]
    | tick obs => simpa [monitorLoop] using ih

open Livestream in
lemma monitorStream_ne_done_none (nav : Option GoErr) (sched : List MonEvent) :
    (monitorStream nav sched).1 ≠ RunOutcome.done none := by
  cases nav with
  | none => exact monitorLoop_ne_done_none sched
  | some e => simp [monitorStream]

open Livestream in
lemma gWait_keep_some (l : List (Option GoErr)) (x : GoErr) :
    List.foldl (fun acc r => match acc with | some e => some e | none => r)
      (some x) l = some x := by
  induction l with
  | nil => rfl
  | cons a rest ih =>
    rw [List.foldl_cons]
    exact ih

open Livestream in
/-- C9: every completed per-stream task returns a non-nil error (a wrapped
navigation failure, or ctx.Err() once cancellation fires — the tick case
never returns), so with a non-empty stream set whose tasks all complete,
g.Wait() yields a non-nil error and Start wraps and returns it;
with an empty stream set Start returns nil. -/
theorem C9_start_error_on_completion (tasks : List (Option GoErr × List MonEvent))
    (hne : tasks ≠ [])
    (hdone : ∀ t ∈ tasks, (monitorStream t.1 t.2).1 ≠ RunOutcome.running) :
    startResult (tasks.map fun t => runReturn (monitorStream t.1 t.2).1) ≠ none ∧
    startResult [] = none := by
  refine ⟨?_, rfl⟩
  obtain ⟨t0, ts, rfl⟩ := List.exists_cons_of_ne_nil hne
  have h0 := hdone t0 (List.mem_cons_self _ _)
  have hnn := monitorStream_ne_done_none t0.1 t0.2
  rcases hr : (monitorStream t0.1 t0.2).1 with _ | e
  · exact absurd hr h0
  · rcases e with _ | e1
    · rw [hr] at hnn
      exact absurd rfl hnn
    · have hg : gWait ((t0 :: ts).map fun t => runReturn (monitorStream t.1 t.2).1) =
          some e1 := by
        simp only [List.map_cons, hr, runReturn]
        show List.foldl _ none (some e1 :: _) = some e1
        rw [List.foldl_cons]
        exact gWait_keep_some _ e1
      intro hcontra
      rw [startResult, hg] at hcontra
      exact Option.noConfusion hcontra

open Livestream in
/-- C9 witness: a single stream whose task completes through cancellation
makes Start return a non-nil wrapped error. -/
theorem C9_witness :
    startResult ([((none : Option GoErr), [MonEvent.cancel])].map
      fun t => runReturn (monitorStream t.1 t.2).1) ≠ none :=
  (C9_start_error_on_completion [((none : Option GoErr), [MonEvent.cancel])]
    (by simp) (by
      intro t ht
      rw [List.mem_singleton] at ht
      subst ht
      decide)).1

lemma CookieInv_initial : CookieInv initialState := fun h => Bool.noConfusion h

lemma SaveSession_inv (e : SaveEnv) (st : ManagerState) (hst : CookieInv st)
    (he : SaveEnvGood e) : CookieInv (SaveSession e st).2 := by
  unfold SaveSession
  cases hc : e.getCookies with
  | none => exact hst
  | some cs =>
    by_cases hw : e.writeOK
    · simp only [hw, if_true]
      intro _
      exact he cs hc
    · simp only [hw, if_false]
      intro _
      exact he cs hc

lemma SaveSession_inv_captures (e : SaveEnv) (st : ManagerState)
    (he : SaveEnvCaptures e) : CookieInv (SaveSession e st).2 := by
  obtain ⟨cs, hc, hne⟩ := he
  unfold SaveSession
  rw [hc]
  by_cases hw : e.writeOK
  · simp only [hw, if_true]
    intro _
    exact hne
  · simp only [hw, if_false]
    intro _
    exact hne

lemma LoadSession_inv (e : LoadEnv) (st : ManagerState) (hst : CookieInv st)
    (he : LoadEnvGood e) : CookieInv (LoadSession e st).2 := by
  unfold LoadSession
  cases hc : e.fileContent with
  | none => exact hst
  | some o =>
    cases o with
    | none => exact hst
    | some cs =>
      by_cases hw : e.setCookiesOK
      · simp only [hw, if_true]
        intro _
        exact he cs hc
      · simp only [hw, if_false]
        exact hst

lemma LoadSession_true_cookies (e : LoadEnv) (st : ManagerState)
    (he : LoadEnvGood e) : (LoadSession e st).1 = true →
    (LoadSession e st).2.cookies ≠ [] := by
  unfold LoadSession
  cases hc : e.fileContent with
  | none => simp
  | some o =>
    cases o with
    | none => simp
    | some cs =>
      by_cases hw : e.setCookiesOK
      · simp only [hw, if_true]
        intro _
        exact he cs hc
      · simp only [hw, if_false]
        simp

lemma ManualLogin_inv (env : MLEnv) (st : ManagerState) (hst : CookieInv st)
    (he : SaveEnvCaptures env.save) : CookieInv (ManualLogin env st).2.1 := by
  unfold ManualLogin
  by_cases hn : env.navOK
  · simp only [hn, Bool.not_true, Bool.false_eq_true, if_false]
    cases hm : mlLoopGo env.poll 0 with
    | detected i =>
      exact SaveSession_inv_captures env.save { st with isLoggedIn := true } he
    | timedOut e => exact hst
  · simp only [hn, Bool.not_false, if_true]
    exact hst

lemma PerformLogin_inv (cfg : Cfg) (env : PerformEnv) (st : ManagerState)
    (hst : CookieInv st) (he : SaveEnvGood env.save) :
    CookieInv (PerformLogin cfg env st).2 := by
  unfold PerformLogin
  repeat' split
  all_goals first
    | exact hst
    | exact SaveSession_inv env.save st hst he

lemma Login_inv (cfg : Cfg) (env : LoginEnv) (st : ManagerState) (hst : CookieInv st)
    (hload : LoadEnvGood env.load) (hml : SaveEnvCaptures env.ml.save)
    (hpl : SaveEnvGood env.pl.save) : CookieInv (Login cfg env st).2.1 := by
  have hl2 : CookieInv (LoadSession env.load st).2 :=
    LoadSession_inv env.load st hst hload
  rw [Login_eq_cases]
  split
  · rename_i h1
    intro _
    have hl1 : (LoadSession env.load st).1 = true := by
      simp only [Bool.and_eq_true] at h1
      exact h1.1
    exact LoadSession_true_cookies env.load st hload hl1
  · split
    · exact ManualLogin_inv env.ml _ hl2 hml
    · exact PerformLogin_inv cfg env.pl _ hl2 hpl

lemma stepOp_inv (st : ManagerState) (op : AuthOp) (hst : CookieInv st)
    (hop : OpGood op) : CookieInv (stepOp st op) := by
  cases op with
  | login cfg env =>
    obtain ⟨h1, h2, h3⟩ := hop
    exact Login_inv cfg env st hst h1 h2 h3
  | manualLogin env => exact ManualLogin_inv env st hst hop
  | performLogin cfg env => exact PerformLogin_inv cfg env st hst hop
  | saveSession env => exact SaveSession_inv env st hst hop
  | loadSession env => exact LoadSession_inv env st hst hop
  | validateSession env => exact hst
  | logout ok =>
    show CookieInv (Logout ok st).2
    unfold Logout
    by_cases h : ok
    · simp only [h, if_true]
      intro hc
      exact Bool.noConfusion hc
    · simp only [h, if_false]
      exact hst

lemma foldl_inv : ∀ (ops : List AuthOp) (st : ManagerState), CookieInv st →
    (∀ op ∈ ops, OpGood op) → CookieInv (ops.foldl stepOp st) := by
  intro ops
  induction ops with
  | nil =>
    intro st hst _
    exact hst
  | cons op rest ih =>
    intro st hst hgood
    rw [List.foldl_cons]
    exact ih _ (stepOp_inv st op hst (hgood op (List.mem_cons_self _ _)))
      (fun x hx => hgood x (List.mem_cons_of_mem _ hx))

/-- C8 counterexample: a single SaveSession whose driver cookie read
succeeds with the empty list sets isLoggedIn = true while m.cookies is
empty — an operation does set the authenticated flag with an empty cookie
list, so the invariant fails as stated. -/
theorem C8_counterexample :
    (runOps [AuthOp.saveSession ⟨some [], true⟩]).isLoggedIn = true ∧
    (runOps [AuthOp.saveSession ⟨some [], true⟩]).cookies = [] := ⟨rfl, rfl⟩

/-- C8 amended: provided every successful driver cookie capture and every
successfully parsed session file in the sequence carries at least one
cookie, and the capture attempted by the SaveSession that follows a
manual-login detection does not fail, every state reachable from the fresh
manager by Login, ManualLogin, PerformLogin, SaveSession, LoadSession,
ValidateSession and Logout operations satisfies the invariant: when the
authenticated flag is true the in-memory cookie list is non-empty. -/
theorem C8_cookie_invariant (ops : List AuthOp) (hgood : ∀ op ∈ ops, OpGood op)
    (hauth : (runOps ops).isLoggedIn = true) : (runOps ops).cookies ≠ [] :=
  foldl_inv ops initialState CookieInv_initial hgood hauth

/-- C8 witness: one SaveSession capturing one cookie leaves a logged-in
state with a non-empty cookie list. -/
theorem C8_witness :
    (runOps [AuthOp.saveSession
      ⟨some [⟨"SPC_EC", "t", "d", "/", true, true⟩], true⟩]).cookies ≠ [] :=
  C8_cookie_invariant _ (by
    intro op hop
    rw [List.mem_singleton] at hop
    subst hop
    intro cs hcs
    cases hcs
    simp) rfl

/-- C10: the auth package's three-clause contains(s, substr) returns true
exactly when substr occurs as a contiguous substring of s (the empty
substring is contained in every string), and it agrees with the purchase
package's plain-scan contains on every input. -/
theorem C10_contains_equivalence (s sub : List Char) :
    (Auth.contains s sub = true ↔ ∃ pre post, s = pre ++ sub ++ post) ∧
    Auth.contains s sub = Purchase.contains s sub ∧
    Auth.contains s [] = true := by
  refine ⟨(auth_contains_iff s sub).trans (occurs_iff_slice s sub).symm, ?_, ?_⟩
  · rw [Bool.eq_iff_iff, auth_contains_iff, purchase_contains_iff]
  · exact (auth_contains_iff s []).mpr ⟨0, by simp, by simp⟩

end Shopee
